import Mathlib

/-!
Verification of the token-acquisition-and-caching subsystem of the
stac-api-server middleware (`stac_fastapi/api/middleware.py` and
`stac_fastapi/api/azure.py`).

The Python code is shallowly embedded: Python strings are Lean `String`s,
`str.split` is modelled by a fuel-based executable split with identical
semantics for non-empty separators, the module-global `token_store` dict is
threaded explicitly as an association list, `datetime` values are integers
(seconds), and every Python exception relevant to the claims (`KeyError`,
`IndexError`) is made explicit through `Option`/`Except` results.  External
collaborators (the Microsoft Planetary Computer signing endpoint, the Azure
`generate_blob_sas` routine) are abstracted as function parameters, so that a
theorem quantifying over them expresses properties that hold whatever the
collaborator returns.
-/

namespace StacApi

/-- Fuel-based worker for Python-style `str.split(sep)` over character lists.
`acc` is the chunk currently being accumulated.  The fuel is instantiated
with the length of the subject list, which is always sufficient because each
step consumes at least one character. -/
def pySplitGo (sep : List Char) : Nat → List Char → List Char → List (List Char)
  | 0, s, acc => [acc ++ s]
  | fuel+1, s, acc =>
    match s with
    | [] => [acc]
    | c :: rest =>
      if sep.isPrefixOf (c :: rest) then
        acc :: pySplitGo sep fuel (List.drop sep.length (c :: rest)) []
      else
        pySplitGo sep fuel rest (acc ++ [c])

/-- Python `s.split(sep)` for a non-empty separator: the list of chunks of
`s` between non-overlapping occurrences of `sep`, always non-empty. -/
def pySplit (s sep : String) : List String :=
  (pySplitGo sep.data s.data.length s.data []).map String.mk

/-- Python `pat in s` (substring containment): true iff `pat` is empty or
splitting on `pat` yields more than one chunk. -/
def strContains (s pat : String) : Bool :=
  pat == "" || (pySplit s pat).length != 1

/-- Python `s.startswith(pat)`. -/
def pyStartsWith (s pat : String) : Bool :=
  pat.data.isPrefixOf s.data

/-- Python `s.split('/')[-1]`: the final `/`-separated segment (the split
result is never empty, so the default is never used). -/
def lastSegment (s : String) : String :=
  (pySplit s "/").getLastD ""

/-- Python `l[0]` on a split result, which is never empty, so the default is
never used. -/
def pyFirst (l : List String) : String :=
  l.headD ""

/-- The `Token` class of `middleware.py`: an issued signed-access token with
its absolute expiry (modelled as integer seconds) and the collection it was
issued for. -/
structure Token where
  token : String
  token_expire : Int
  collection_name : String
deriving DecidableEq, Repr

/-- The module-global `token_store` dict: collection name mapped to a cached
`Token` or to the `None` sentinel recording an unavailable collection. -/
abbrev TokenStore := List (String × Option Token)

/-- Python dict lookup: `some v` when the key is present (`k in d` and
`d[k] = v`), `none` when absent. -/
def lookupStore (s : TokenStore) (k : String) : Option (Option Token) :=
  match s.find? (fun p => p.1 == k) with
  | some p => some p.2
  | none => none

/-- Python dict assignment `d[k] = v`: the new binding shadows any old one. -/
def insertStore (s : TokenStore) (k : String) (v : Option Token) : TokenStore :=
  (k, v) :: s.filter (fun p => p.1 != k)

/-- The `datetime.timedelta(minutes=10)` constant in seconds: the refresh margin used by
`get_token`. -/
def refreshMargin : Int := 10 * 60

/-- The observable content of the signing service's HTTP response to
`GET https://planetarycomputer.microsoft.com/api/sas/v1/token/{account}/{blob}`:
its status code, and the `token` and `msft:expiry` fields of the JSON body
(`none` models a missing field, an unparsable body, or an unparsable expiry
timestamp — each raises inside the `try` of `get_token_from_microsoft_blob`). -/
structure HttpResp where
  status : Nat
  tokenField : Option String
  expiryField : Option Int
deriving DecidableEq, Repr

/-- The network environment: what the signing service answers for a given
storage account and blob name. -/
abbrev Net := String → String → HttpResp

/-- The shape of the issuance routine as the cache layer sees it: given the
store and the three name arguments, produce a result and an updated store. -/
abbrev IssuerFn := TokenStore → String → String → String → Option Token × TokenStore

/-- Embedding of `get_token_from_microsoft_blob` of `middleware.py`: reads the `token` and
`msft:expiry` fields of the response body, builds a `Token` and stores it
under the collection name; any failure (missing field, unparsable body or
expiry) is swallowed by the bare `except`, which stores the `None` sentinel
and returns `None`.  The HTTP status code is never inspected, because
`requests.get` does not raise on non-2xx responses. -/
def get_token_from_microsoft_blob (net : Net) : IssuerFn :=
  fun store collection_name storage_account blob_name =>
    let r := net storage_account blob_name
    match r.tokenField, r.expiryField with
    | some t, some e =>
      let a : Token := ⟨t, e, collection_name⟩
      (some a, insertStore store collection_name (some a))
    | _, _ => (none, insertStore store collection_name none)

/-- Embedding of `get_token` of `middleware.py`, with the issuance routine abstracted as a
parameter (the source closes over `get_token_from_microsoft_blob`): a cached
`None` sentinel yields `None` with no issuance; a cached token is returned
unchanged unless its expiry is within ten minutes of `now`, in which case the
issuer is invoked; a missing entry invokes the issuer. -/
def get_token (issuer : IssuerFn) (now : Int) (store : TokenStore)
    (collection_name storage_account blob_name : String) : Option Token × TokenStore :=
  match lookupStore store collection_name with
  | some token? =>
    match token? with
    | none => (none, store)
    | some token =>
      if token.token_expire - now < refreshMargin then
        issuer store collection_name storage_account blob_name
      else
        (some token, store)
  | none => issuer store collection_name storage_account blob_name

/-- A STAC link object with its `rel` and `href` fields. -/
structure Link where
  rel : String
  href : String
deriving DecidableEq, Repr

/-- A STAC Item as the rewriter sees it: an `assets` mapping (asset name to
its `href`) and a `links` sequence; `none` models the JSON field being
absent, which makes the corresponding subscript raise `KeyError`. -/
structure Item where
  assets : Option (List (String × String))
  links : Option (List Link)
deriving DecidableEq, Repr

/-- A decoded response document: a FeatureCollection when `features` is
present, and/or a single Item via its own `assets`/`links` fields. -/
structure StacDoc where
  features : Option (List Item)
  assets : Option (List (String × String))
  links : Option (List Link)
deriving DecidableEq, Repr

/-- View a document through its Item-level fields, as `tokenify(decoded)`
does when applied to the whole document. -/
def StacDoc.toItem (d : StacDoc) : Item :=
  ⟨d.assets, d.links⟩

/-- The Python exceptions distinguished by the middleware's handlers. -/
inductive PyErr
  | keyError
  | indexError
deriving DecidableEq, Repr

/-- The per-asset body of `tokenify`'s loop: parse the storage account and
blob name out of the href (an `IndexError` from a subscript of a failed split
is caught by the per-asset `try`, leaving the href unchanged), consult
`get_token`, and on success append `?token` to the href unconditionally. -/
def processAsset (issuer : IssuerFn) (now : Int) (store : TokenStore)
    (collection_id asset_href : String) : String × TokenStore :=
  match (pySplit asset_href "https://")[1]? with
  | none => (asset_href, store)
  | some afterScheme =>
    let storage_account_name := pyFirst (pySplit afterScheme ".blob.core.windows.net/")
    match (pySplit asset_href ".blob.core.windows.net/")[1]? with
    | none => (asset_href, store)
    | some afterHost =>
      let blob_name := pyFirst (pySplit afterHost "/")
      match get_token issuer now store collection_id storage_account_name blob_name with
      | (some t, store') => (asset_href ++ "?" ++ t.token, store')
      | (none, store') => (asset_href, store')

/-- The `for a in av` loop of `tokenify`: rewrite each asset href in order,
threading the token store. -/
def tokenifyAssets (issuer : IssuerFn) (now : Int) :
    TokenStore → String → List (String × String) → List (String × String) × TokenStore
  | store, _, [] => ([], store)
  | store, cid, (n, h) :: rest =>
    let (h', store') := processAsset issuer now store cid h
    let (rest', store'') := tokenifyAssets issuer now store' cid rest
    ((n, h') :: rest', store'')

/-- Embedding of `tokenify` of `middleware.py` on one item: reading a missing `assets` or
`links` field raises `KeyError`, and an empty collection-link list raises
`IndexError` at `[0]` — all three escape `tokenify` because they occur
outside the per-asset `try`.  Otherwise the collection id is the last path
segment of the first link whose `rel` is `collection`, and every asset is
rewritten best-effort. -/
def tokenify (issuer : IssuerFn) (now : Int) (store : TokenStore) (it : Item) :
    Except PyErr (Item × TokenStore) :=
  match it.assets with
  | none => .error .keyError
  | some av =>
    match it.links with
    | none => .error .keyError
    | some links =>
      match ((links.filter (fun l => l.rel == "collection")).map (fun l => l.href)).head? with
      | none => .error .indexError
      | some chref =>
        let collection_id := lastSegment chref
        let (av', store') := tokenifyAssets issuer now store collection_id av
        .ok ({ it with assets := some av' }, store')

/-- The `for item in decoded['features']: tokenify(item)` loop: items are
mutated in place one by one, so when `tokenify` raises on an item, the items
already processed keep their rewritten hrefs while the raising item and every
later item are left untouched; the returned flag records whether the loop ran
to completion. -/
def goItems (issuer : IssuerFn) (now : Int) :
    TokenStore → List Item → List Item × TokenStore × Bool
  | store, [] => ([], store, true)
  | store, it :: rest =>
    match tokenify issuer now store it with
    | .ok (it', store') =>
      let (rest', store'', ok) := goItems issuer now store' rest
      (it' :: rest', store'', ok)
    | .error _ => (it :: rest, store, false)

/-- The rewriting section of `MicrosoftPlanetaryComputerMiddleware.dispatch`:
the first `try` iterates `tokenify` over `decoded['features']` (a missing
`features` field raises `KeyError`); on any exception the second `try`
applies `tokenify` to the whole document (for the single-Item case); on a
further exception the document is returned as mutated so far.  Both `except
KeyError` and `except Exception` swallow everything, so this function is
total: no exception ever escapes the dispatch. -/
def rewriteDoc (issuer : IssuerFn) (now : Int) (store : TokenStore) (doc : StacDoc) :
    StacDoc × TokenStore :=
  match doc.features with
  | some feats =>
    let (feats', store', ok) := goItems issuer now store feats
    let doc1 : StacDoc := { doc with features := some feats' }
    if ok then (doc1, store')
    else
      match tokenify issuer now store' doc1.toItem with
      | .ok (it', store'') => ({ doc1 with assets := it'.assets }, store'')
      | .error _ => (doc1, store')
  | none =>
    match tokenify issuer now store doc.toItem with
    | .ok (it', store') => ({ doc with assets := it'.assets }, store')
    | .error _ => (doc, store)

/-- The parts of a framework response the middleware observes and reproduces:
status code, `Content-Type` header, and the decoded JSON body. -/
structure Resp where
  status : Nat
  contentType : Option String
  body : StacDoc
deriving DecidableEq, Repr

/-- The `intercept_paths` list shared by both middlewares. -/
def intercept_paths : List String := ["search", "items"]

/-- The interception test: Python intersects the set of `/`-separated path
segments with `intercept_paths` and proceeds only if non-empty. -/
def pathIntercepted (path : String) : Bool :=
  (pySplit path "/").any (fun seg => intercept_paths.contains seg)

/-- Embedding of `MicrosoftPlanetaryComputerMiddleware.dispatch` after the handler has
produced `resp`: redirects (status 300–399) and non-intercepted paths pass
through unchanged; otherwise the body is rewritten and re-emitted with the
original status code and `Content-Type`. -/
def mpcDispatch (issuer : IssuerFn) (now : Int) (store : TokenStore)
    (path : String) (resp : Resp) : Resp × TokenStore :=
  if 300 ≤ resp.status && resp.status < 400 then (resp, store)
  else if !(pathIntercepted path) then (resp, store)
  else
    let (doc', store') := rewriteDoc issuer now store resp.body
    (⟨resp.status, resp.contentType, doc'⟩, store')

/-- The parsed configuration extracted from the connection string by
`get_read_sas_token` before it examines the href. -/
structure ConnParams where
  accountName : String
  accountKey : String
  endpointSuffix : String
deriving DecidableEq, Repr

/-- Python dict assignment for the `azure_params` dict of string pairs. -/
def dictInsert (d : List (String × String)) (k v : String) : List (String × String) :=
  (k, v) :: d.filter (fun p => p.1 != k)

/-- Python dict subscript for the `azure_params` dict: `none` is `KeyError`. -/
def dictLookup (d : List (String × String)) (k : String) : Option String :=
  match d.find? (fun p => p.1 == k) with
  | some p => some p.2
  | none => none

/-- The `for param in connection_string_split` loop of `get_read_sas_token`:
each `;`-separated segment is split on `=`; the subscript `param_split[1]`
raises `IndexError` when a segment contains no `=`, otherwise the first two
pieces become a dict entry (later segments shadow earlier ones). -/
def buildParams : List String → List (String × String) → Except PyErr (List (String × String))
  | [], acc => .ok acc
  | p :: rest, acc =>
    let ps := pySplit p "="
    match ps[1]? with
    | none => .error .indexError
    | some v => buildParams rest (dictInsert acc (pyFirst ps) v)

/-- The three dict subscripts at the end of `get_read_sas_token`'s
configuration block: `azure_params["AccountName"]`, `azure_params["AccountKey"]`
and `azure_params["EndpointSuffix"]`, each raising `KeyError` when absent. -/
def lookupParams (params : List (String × String)) : Except PyErr ConnParams :=
  match dictLookup params "AccountName" with
  | none => .error .keyError
  | some an =>
    match dictLookup params "AccountKey" with
    | none => .error .keyError
    | some ak =>
      match dictLookup params "EndpointSuffix" with
      | none => .error .keyError
      | some es => .ok ⟨an, ak, es⟩

/-- The configuration-parsing half of `get_read_sas_token`:
`connection_string.split("AccountKey=")[1]` raises `IndexError` when the
marker is absent; `.split(";")[0]` then isolates the key (so an `=` inside
the key survives); the segment loop builds `azure_params`; "AccountKey" is
re-assigned before the three final subscripts. -/
def parseConn (connection_string : String) : Except PyErr ConnParams :=
  match (pySplit connection_string "AccountKey=")[1]? with
  | none => .error .indexError
  | some afterKey =>
    let account_key := pyFirst (pySplit afterKey ";")
    match buildParams (pySplit connection_string ";") [] with
    | .error e => .error e
    | .ok params0 =>
      lookupParams (dictInsert params0 "AccountKey" account_key)

/-- The Azure `generate_blob_sas` library call, abstracted: account name,
account key, container name, blob name to the produced SAS token string. -/
abbrev SignFn := String → String → String → String → String

/-- Embedding of `get_read_sas_token` of `azure.py`, with the connection string, the
configured container and the signing library as parameters: after parsing the
configuration, an href not containing the account name is returned unchanged
with an empty token; otherwise an href starting with `http` is reduced to its
final `/`-segment, which becomes the blob name inside the configured
container of the rebuilt signed URL. -/
def get_read_sas_token (connection_string container_env : String) (sign : SignFn)
    (filename : String) : Except PyErr (String × String) :=
  match parseConn connection_string with
  | .error e => .error e
  | .ok p =>
    if !(strContains filename p.accountName) then
      .ok ("", filename)
    else
      let fn := if pyStartsWith filename "http" then lastSegment filename else filename
      let container_name := container_env
      let sas_token := sign p.accountName p.accountKey container_name fn
      .ok (sas_token,
        "https://" ++ p.accountName ++ ".blob." ++ p.endpointSuffix ++ "/"
          ++ container_name ++ "/" ++ fn ++ "?" ++ sas_token)

/-- The inner asset loop of `BlobAccessMiddleware.dispatch`: each asset href
is replaced by the signed URL from `get_read_sas_token`; when the call
raises, the already-rewritten assets keep their new hrefs and the raising
asset and the rest are left as they were, with the exception kind reported
to the caller. -/
def blobAssets (cs cn : String) (sign : SignFn) :
    List (String × String) → List (String × String) × Option PyErr
  | [] => ([], none)
  | (n, h) :: rest =>
    match get_read_sas_token cs cn sign h with
    | .error e => ((n, h) :: rest, some e)
    | .ok r =>
      ((n, r.2) :: (blobAssets cs cn sign rest).1, (blobAssets cs cn sign rest).2)

/-- The `for item in decoded['features']` loop of
`BlobAccessMiddleware.dispatch`: a missing `assets` field raises `KeyError`
for that item, and any exception (from the field access or from
`get_read_sas_token`) aborts the loop, with earlier in-place mutations
retained. -/
def blobItems (cs cn : String) (sign : SignFn) :
    List Item → List Item × Option PyErr
  | [] => ([], none)
  | it :: rest =>
    match it.assets with
    | none => (it :: rest, some .keyError)
    | some av =>
      match (blobAssets cs cn sign av).2 with
      | some e => ({ it with assets := some (blobAssets cs cn sign av).1 } :: rest, some e)
      | none =>
        ({ it with assets := some (blobAssets cs cn sign av).1 } :: (blobItems cs cn sign rest).1,
         (blobItems cs cn sign rest).2)

/-- The second `try` of `BlobAccessMiddleware.dispatch` and the final
fall-through return: a missing `assets` field or a `KeyError` from the asset
loop is swallowed (the plain return still emits the document as mutated so
far), but an `IndexError` is not caught by `except KeyError` and escapes the
dispatch. -/
def blobSecondTry (cs cn : String) (sign : SignFn) (doc : StacDoc) :
    Except PyErr StacDoc :=
  match doc.assets with
  | none => .ok doc
  | some av =>
    match (blobAssets cs cn sign av).2 with
    | none => .ok { doc with assets := some (blobAssets cs cn sign av).1 }
    | some .keyError => .ok { doc with assets := some (blobAssets cs cn sign av).1 }
    | some .indexError => .error .indexError

/-- The rewriting section of `BlobAccessMiddleware.dispatch`: the first `try`
walks `decoded['features']` (a missing field raises `KeyError`, caught);
on a `KeyError` the second `try` runs; an `IndexError` — which
`get_read_sas_token` raises on a malformed connection string — is caught by
neither handler and escapes as a failed response (`.error`). -/
def blobRewrite (cs cn : String) (sign : SignFn) (doc : StacDoc) :
    Except PyErr StacDoc :=
  match doc.features with
  | some feats =>
    match (blobItems cs cn sign feats).2 with
    | none => .ok { doc with features := some (blobItems cs cn sign feats).1 }
    | some .keyError =>
      blobSecondTry cs cn sign { doc with features := some (blobItems cs cn sign feats).1 }
    | some .indexError => .error .indexError
  | none => blobSecondTry cs cn sign doc

/-- Embedding of `BlobAccessMiddleware.dispatch` after the handler has produced `resp`:
the same interception test as the Planetary Computer variant, then the
rewrite; a successful rewrite is re-emitted with the original status code and
`Content-Type`, while an uncaught exception makes the whole dispatch fail. -/
def blobDispatch (cs cn : String) (sign : SignFn) (path : String) (resp : Resp) :
    Except PyErr Resp :=
  if 300 ≤ resp.status && resp.status < 400 then .ok resp
  else if !(pathIntercepted path) then .ok resp
  else
    match blobRewrite cs cn sign resp.body with
    | .ok doc' => .ok ⟨resp.status, resp.contentType, doc'⟩
    | .error e => .error e

/-! ### Concrete fixtures used by witnesses and counterexamples -/

/-- A signing service that always answers 200 with a token and expiry. -/
def netOK : Net := fun _ _ => ⟨200, some "XYZ", some 1000000⟩

/-- A signing service that answers 404 yet with a well-formed body. -/
def net404 : Net := fun _ _ => ⟨404, some "XYZ", some 2000⟩

/-- A signing service whose 200 response body lacks the `token` field. -/
def netNoToken : Net := fun _ _ => ⟨200, none, some 5⟩

/-- A concrete `generate_blob_sas` stand-in. -/
def signX : SignFn := fun _ _ _ _ => "SAS"

/-- A collection link list naming collection `c1`. -/
def exLinks : List Link := [⟨"collection", "https://api/collections/c1"⟩]

/-- Well-formed item 1 of the three-item FeatureCollection. -/
def exItem1 : Item := ⟨some [("b1", "https://acct.blob.core.windows.net/p/a.tif")], some exLinks⟩

/-- Malformed item 2: it has assets but no `links` field. -/
def exItem2 : Item := ⟨some [("b2", "https://acct.blob.core.windows.net/p/b.tif")], none⟩

/-- Well-formed item 3. -/
def exItem3 : Item := ⟨some [("b3", "https://acct.blob.core.windows.net/p/c.tif")], some exLinks⟩

/-- The three-item FeatureCollection of property P4. -/
def exDoc : StacDoc := ⟨some [exItem1, exItem2, exItem3], none, none⟩

/-- Item 1 after rewriting under `netOK`. -/
def exItem1R : Item := ⟨some [("b1", "https://acct.blob.core.windows.net/p/a.tif?XYZ")], some exLinks⟩

/-- The token store after one issuance for collection `c1` under `netOK`. -/
def exStore1 : TokenStore := [("c1", some ⟨"XYZ", 1000000, "c1"⟩)]

/-- A well-formed connection string, as in Scenario A of the specification. -/
def exConn : String := "AccountName=acct;AccountKey=abc123;EndpointSuffix=core.windows.net"

/-! ### C3: query-string append -/

/-- C3 counterexample: the remote-mode rewrite appends `?XYZ` to an asset
href that already contains `?`, producing a doubled query separator — the
code has no check for an existing query string. -/
theorem double_query_append_counterexample :
    strContains "https://acct.blob.core.windows.net/p/a.tif?q=1" "?" = true ∧
    processAsset (get_token_from_microsoft_blob netOK) 0 [] "c1"
        "https://acct.blob.core.windows.net/p/a.tif?q=1"
      = ("https://acct.blob.core.windows.net/p/a.tif?q=1?XYZ", exStore1) := by
  constructor <;> decide

/-- C3 amended: whenever the href parses against the storage-host pattern and
a token is obtained, `tokenify`'s asset step appends `?token` to the href
unconditionally — whether or not the href already contains a query string. -/
theorem query_append_unconditional (issuer : IssuerFn) (now : Int)
    (store store' : TokenStore) (cid href afterScheme afterHost : String) (t : Token)
    (h1 : (pySplit href "https://")[1]? = some afterScheme)
    (h2 : (pySplit href ".blob.core.windows.net/")[1]? = some afterHost)
    (h3 : get_token issuer now store cid
            (pyFirst (pySplit afterScheme ".blob.core.windows.net/"))
            (pyFirst (pySplit afterHost "/")) = (some t, store')) :
    processAsset issuer now store cid href = (href ++ "?" ++ t.token, store') := by
  simp [processAsset, h1, h2, h3]

/-- Witness for `query_append_unconditional` at a concrete href that already
carries a query string. -/
theorem query_append_unconditional_witness :
    processAsset (get_token_from_microsoft_blob netOK) 0 [] "c1"
        "https://acct.blob.core.windows.net/p/z.tif?a=b"
      = ("https://acct.blob.core.windows.net/p/z.tif?a=b" ++ "?" ++ "XYZ", exStore1) :=
  query_append_unconditional (get_token_from_microsoft_blob netOK) 0 [] exStore1
    "c1" "https://acct.blob.core.windows.net/p/z.tif?a=b"
    "acct.blob.core.windows.net/p/z.tif?a=b" "p/z.tif?a=b" ⟨"XYZ", 1000000, "c1"⟩
    (by decide) (by decide) (by decide)

/-! ### C4: the unavailable sentinel -/

/-- C4 counterexample: with the sentinel stored for collection `c`, a
subsequent request's `get_token` still answers `None` and leaves the store
untouched, even though the issuer — shown on the right — would succeed if it
were re-attempted: the sentinel is never retried within the process
lifetime. -/
theorem sentinel_never_retried_counterexample :
    get_token (get_token_from_microsoft_blob netOK) 0 [("c", none)] "c" "sa" "bn"
      = (none, [("c", none)]) ∧
    (get_token_from_microsoft_blob netOK [("c", none)] "c" "sa" "bn").1
      = some ⟨"XYZ", 1000000, "c"⟩ := by
  constructor <;> decide

/-- C4 amended: when the stored value for the scope key is the `None`
sentinel, `get_token` returns none without invoking the issuer (the result is
independent of the issuer) and leaves the store unchanged — so every
subsequent request during the process lifetime behaves identically and never
re-attempts issuance. -/
theorem sentinel_negative_cache_persistent (issuer : IssuerFn) (now : Int)
    (store : TokenStore) (c sa bn : String)
    (h : lookupStore store c = some none) :
    get_token issuer now store c sa bn = (none, store) := by
  simp [get_token, h]

/-- Witness for `sentinel_negative_cache_persistent` at a concrete store. -/
theorem sentinel_negative_cache_persistent_witness :
    get_token (get_token_from_microsoft_blob net404) 7 [("c2", none)] "c2" "sa" "bn"
      = (none, [("c2", none)]) :=
  sentinel_negative_cache_persistent (get_token_from_microsoft_blob net404) 7
    [("c2", none)] "c2" "sa" "bn" (by decide)

/-! ### C5: issuance failure conditions -/

/-- C5 counterexample: the code never inspects the HTTP status code, so a 404
response whose body still carries `token` and `msft:expiry` fields produces a
`Token` record and caches it — non-200 alone is not an issuance failure. -/
theorem non200_still_issues_counterexample :
    (net404 "sa" "bn").status = 404 ∧
    get_token_from_microsoft_blob net404 [] "c" "sa" "bn"
      = (some ⟨"XYZ", 2000, "c"⟩, [("c", some ⟨"XYZ", 2000, "c"⟩)]) := by
  constructor <;> decide

/-- C5 amended: issuance fails exactly when the response body is unusable — a
missing (or unparsable) `token` or `msft:expiry` field makes
`get_token_from_microsoft_blob` store the unavailable sentinel and return
none; the status code plays no part. -/
theorem missing_fields_issuance_fails (net : Net) (store : TokenStore)
    (c sa bn : String)
    (h : (net sa bn).tokenField = none ∨ (net sa bn).expiryField = none) :
    get_token_from_microsoft_blob net store c sa bn = (none, insertStore store c none) := by
  rcases h with h | h
  · simp [get_token_from_microsoft_blob, h]
  · cases ht : (net sa bn).tokenField <;>
      simp [get_token_from_microsoft_blob, ht, h]

/-- Witness for `missing_fields_issuance_fails` with a 200 response whose
body lacks the `token` field. -/
theorem missing_fields_issuance_fails_witness :
    get_token_from_microsoft_blob netNoToken [] "c3" "sa" "bn"
      = (none, insertStore [] "c3" none) :=
  missing_fields_issuance_fails netNoToken [] "c3" "sa" "bn" (Or.inl rfl)

/-! ### C6: cache hit avoids the issuer -/

/-- C6: when the store holds a real token for the scope key whose expiry is
at least the ten-minute refresh margin away from `now`, `get_token` returns
that record and the unchanged store, for every issuer — the issuance routine
is demonstrably not consulted. -/
theorem cache_hit_avoids_issuer (issuer : IssuerFn) (now : Int) (store : TokenStore)
    (c sa bn : String) (tok : Token)
    (hlook : lookupStore store c = some (some tok))
    (hfresh : refreshMargin ≤ tok.token_expire - now) :
    get_token issuer now store c sa bn = (some tok, store) := by
  have hnl : ¬ (tok.token_expire - now < refreshMargin) := not_lt.mpr hfresh
  simp [get_token, hlook, hnl]

/-- Witness for `cache_hit_avoids_issuer` at a concrete fresh token. -/
theorem cache_hit_avoids_issuer_witness :
    get_token (get_token_from_microsoft_blob netOK) 0
        [("c1", some ⟨"T", 10000, "c1"⟩)] "c1" "sa" "bn"
      = (some ⟨"T", 10000, "c1"⟩, [("c1", some ⟨"T", 10000, "c1"⟩)]) :=
  cache_hit_avoids_issuer (get_token_from_microsoft_blob netOK) 0
    [("c1", some ⟨"T", 10000, "c1"⟩)] "c1" "sa" "bn" ⟨"T", 10000, "c1"⟩
    (by decide) (by decide)

/-! ### C7: refresh on near-expiry -/

/-- C7: when the cached token's expiry is within the ten-minute refresh
margin of `now`, `get_token` defers to the issuer (its result is exactly the
issuer's, for every issuer), and with the concrete Planetary Computer issuer
answering a well-formed body the stored record for the scope key is replaced
by the newly issued token, which is also returned. -/
theorem near_expiry_refresh_replaces (net : Net) (now : Int) (store : TokenStore)
    (c sa bn : String) (tok : Token) (t : String) (e : Int)
    (hlook : lookupStore store c = some (some tok))
    (hstale : tok.token_expire - now < refreshMargin)
    (htok : (net sa bn).tokenField = some t)
    (hexp : (net sa bn).expiryField = some e) :
    (∀ issuer : IssuerFn, get_token issuer now store c sa bn = issuer store c sa bn) ∧
    get_token (get_token_from_microsoft_blob net) now store c sa bn
      = (some ⟨t, e, c⟩, insertStore store c (some ⟨t, e, c⟩)) ∧
    lookupStore (insertStore store c (some ⟨t, e, c⟩)) c = some (some ⟨t, e, c⟩) := by
  refine ⟨fun issuer => by simp [get_token, hlook, hstale], ?_, ?_⟩
  · simp [get_token, hlook, hstale, get_token_from_microsoft_blob, htok, hexp]
  · simp [lookupStore, insertStore]

/-- Witness for `near_expiry_refresh_replaces`: a token two minutes from
expiry is replaced by the freshly issued one. -/
theorem near_expiry_refresh_replaces_witness :
    get_token (get_token_from_microsoft_blob netOK) 0
        [("c1", some ⟨"OLD", 120, "c1"⟩)] "c1" "sa" "bn"
      = (some ⟨"XYZ", 1000000, "c1"⟩,
         insertStore [("c1", some ⟨"OLD", 120, "c1"⟩)] "c1" (some ⟨"XYZ", 1000000, "c1"⟩)) :=
  (near_expiry_refresh_replaces netOK 0 [("c1", some ⟨"OLD", 120, "c1"⟩)]
    "c1" "sa" "bn" ⟨"OLD", 120, "c1"⟩ "XYZ" 1000000
    (by decide) (by decide) rfl rfl).2.1

/-! ### C9: no account match leaves the href untouched -/

/-- C9: in local-signing mode, once the connection string parses, an href
that does not contain the configured account name is returned unchanged,
paired with an empty token. -/
theorem no_account_match_unchanged (cs cn : String) (sign : SignFn) (href : String)
    (p : ConnParams)
    (hp : parseConn cs = .ok p)
    (hmiss : strContains href p.accountName = false) :
    get_read_sas_token cs cn sign href = .ok ("", href) := by
  simp [get_read_sas_token, hp, hmiss]

/-- Witness for `no_account_match_unchanged`: the configured account `acct`
does not occur in the href, which therefore passes through unchanged. -/
theorem no_account_match_unchanged_witness :
    get_read_sas_token exConn "stac-items" signX "https://other.blob.core.windows.net/x.tif"
      = .ok ("", "https://other.blob.core.windows.net/x.tif") :=
  no_account_match_unchanged exConn "stac-items" signX
    "https://other.blob.core.windows.net/x.tif"
    ⟨"acct", "abc123", "core.windows.net"⟩ rfl (by decide)

/-! ### C10: local signing discards the original container and path -/

/-- C10: in local-signing mode, an href that starts with `http` and contains
the account name is reduced to its final `/`-separated segment, which becomes
the blob name; the rebuilt signed URL always uses the configured container,
so the href's own container and directory prefix are discarded. -/
theorem local_sign_fixed_container_last_segment (cs cn : String) (sign : SignFn)
    (href : String) (p : ConnParams)
    (hp : parseConn cs = .ok p)
    (hhit : strContains href p.accountName = true)
    (hhttp : pyStartsWith href "http" = true) :
    get_read_sas_token cs cn sign href
      = .ok (sign p.accountName p.accountKey cn (lastSegment href),
          "https://" ++ p.accountName ++ ".blob." ++ p.endpointSuffix ++ "/"
            ++ cn ++ "/" ++ lastSegment href ++ "?"
            ++ sign p.accountName p.accountKey cn (lastSegment href)) := by
  simp [get_read_sas_token, hp, hhit, hhttp]

/-- Witness for `local_sign_fixed_container_last_segment`: the href's
container `other-container` and directory `dir` are discarded; the signed URL
uses the configured container `stac-items` and blob `foo.tif`. -/
theorem local_sign_fixed_container_last_segment_witness :
    get_read_sas_token exConn "stac-items" signX
        "https://acct.blob.core.windows.net/other-container/dir/foo.tif"
      = .ok ("SAS", "https://acct.blob.core.windows.net/stac-items/foo.tif?SAS") := by
  have h := local_sign_fixed_container_last_segment exConn "stac-items" signX
    "https://acct.blob.core.windows.net/other-container/dir/foo.tif"
    ⟨"acct", "abc123", "core.windows.net"⟩ rfl (by decide) (by decide)
  rw [h]
  rfl

/-! ### C1: partial-failure behavior of the FeatureCollection rewrite -/

/-- C1 counterexample: on the three-item FeatureCollection where item 2 has
no `links` field, the rewrite updates item 1 but leaves item 3 untouched as
well — the `KeyError` raised by `stac_body['links']` inside `tokenify`
escapes to the dispatch-level handler and aborts the loop over the remaining
items, so failures are not caught at the claimed per-item granularity.  The
second conjunct shows item 3 was perfectly well-formed: `tokenify` applied to
it alone succeeds and rewrites its asset href. -/
theorem featureLoop_aborts_counterexample :
    (rewriteDoc (get_token_from_microsoft_blob netOK) 0 [] exDoc).1.features
        = some [exItem1R, exItem2, exItem3] ∧
    tokenify (get_token_from_microsoft_blob netOK) 0 [] exItem3
        = .ok (⟨some [("b3", "https://acct.blob.core.windows.net/p/c.tif?XYZ")],
               some exLinks⟩, exStore1) ∧
    exItem3.assets = some [("b3", "https://acct.blob.core.windows.net/p/c.tif")] := by
  refine ⟨by decide, ?_, rfl⟩
  rfl

/-- C1 amended: for a FeatureCollection of three items whose second item
lacks its `links` (or `assets`) field, the rewrite updates item 1's asset
hrefs, leaves the malformed item 2 *and the well-formed item 3* unmodified
(the per-item `KeyError` aborts the remaining iterations), and no exception
escapes — `rewriteDoc` is total and returns the partially rewritten
document. -/
theorem featureLoop_prefix_rewrite (issuer : IssuerFn) (now : Int)
    (store store1 : TokenStore) (i1 i1' i2 i3 : Item) (lk : Option (List Link))
    (h1 : tokenify issuer now store i1 = .ok (i1', store1))
    (h2 : i2.assets = none ∨ i2.links = none) :
    rewriteDoc issuer now store ⟨some [i1, i2, i3], none, lk⟩
      = (⟨some [i1', i2, i3], none, lk⟩, store1) := by
  have htok2 : tokenify issuer now store1 i2 = .error .keyError := by
    rcases h2 with h | h
    · simp [tokenify, h]
    · cases ha : i2.assets with
      | none => simp [tokenify, ha]
      | some av => simp [tokenify, ha, h]
  simp only [rewriteDoc, goItems, h1, htok2]
  simp [tokenify, StacDoc.toItem]

/-- Witness for `featureLoop_prefix_rewrite` on the concrete three-item
FeatureCollection. -/
theorem featureLoop_prefix_rewrite_witness :
    rewriteDoc (get_token_from_microsoft_blob netOK) 0 []
        ⟨some [exItem1, exItem2, exItem3], none, none⟩
      = (⟨some [exItem1R, exItem2, exItem3], none, none⟩, exStore1) :=
  featureLoop_prefix_rewrite (get_token_from_microsoft_blob netOK) 0 [] exStore1
    exItem1 exItem1R exItem2 exItem3 none (by rfl) (Or.inr rfl)

/-! ### C8: the interception boundary -/

/-- C8: both middlewares rewrite only when the request path has a `search` or
`items` segment and the status code is outside 300–399; every other response
passes through unmodified (for `BlobAccessMiddleware`, as a successful
unchanged response), and a rewritten response keeps the original status code
and `Content-Type`. -/
theorem intercept_boundary (issuer : IssuerFn) (now : Int) (store : TokenStore)
    (cs cn : String) (sign : SignFn) (path : String) (resp : Resp) :
    (((300 ≤ resp.status && resp.status < 400) = true ∨ pathIntercepted path = false) →
      mpcDispatch issuer now store path resp = (resp, store) ∧
      blobDispatch cs cn sign path resp = .ok resp) ∧
    ((300 ≤ resp.status && resp.status < 400) = false → pathIntercepted path = true →
      (mpcDispatch issuer now store path resp).1.status = resp.status ∧
      (mpcDispatch issuer now store path resp).1.contentType = resp.contentType ∧
      ∀ r, blobDispatch cs cn sign path resp = .ok r →
        r.status = resp.status ∧ r.contentType = resp.contentType) := by
  constructor
  · rintro (h | h)
    · simp [mpcDispatch, blobDispatch, h]
    · by_cases h3 : (300 ≤ resp.status && resp.status < 400) = true <;>
        simp [mpcDispatch, blobDispatch, h, h3]
  · intro h3 h4
    refine ⟨by simp [mpcDispatch, h3, h4], by simp [mpcDispatch, h3, h4], ?_⟩
    intro r hr
    simp only [blobDispatch, h3, h4] at hr
    simp only [Bool.false_eq_true, if_false, Bool.not_true] at hr
    cases hb : blobRewrite cs cn sign resp.body with
    | ok doc' =>
      rw [hb] at hr
      cases hr
      exact ⟨rfl, rfl⟩
    | error e =>
      rw [hb] at hr
      cases hr

/-- Witness for `intercept_boundary`: a non-intercepted path passes through
unchanged, and an intercepted 200 response keeps its status code. -/
theorem intercept_boundary_witness :
    mpcDispatch (get_token_from_microsoft_blob netOK) 0 [] "/api"
        ⟨200, some "application/json", exDoc⟩
      = (⟨200, some "application/json", exDoc⟩, []) ∧
    (mpcDispatch (get_token_from_microsoft_blob netOK) 0 [] "/collections/c/items"
        ⟨200, some "application/json", exDoc⟩).1.status = 200 := by
  constructor
  · exact ((intercept_boundary (get_token_from_microsoft_blob netOK) 0 [] "" "cn" signX
      "/api" ⟨200, some "application/json", exDoc⟩).1 (Or.inr (by decide))).1
  · exact ((intercept_boundary (get_token_from_microsoft_blob netOK) 0 [] "" "cn" signX
      "/collections/c/items" ⟨200, some "application/json", exDoc⟩).2
      (by decide) (by decide)).1

/-! ### C2: error propagation through the dispatches -/

/-- The connection-string shape under which `get_read_sas_token`'s parsing
subscripts cannot raise `IndexError`: the `AccountKey=` marker occurs, and
every `;`-separated segment contains an `=`. -/
def connWellFormed (cs : String) : Prop :=
  2 ≤ (pySplit cs "AccountKey=").length ∧
  ∀ seg ∈ pySplit cs ";", 2 ≤ (pySplit seg "=").length

/-- The segment loop of `get_read_sas_token` succeeds on segments that all
contain an `=`. -/
theorem buildParams_ok (segs : List String)
    (h : ∀ seg ∈ segs, 2 ≤ (pySplit seg "=").length) :
    ∀ acc, ∃ d, buildParams segs acc = .ok d := by
  induction segs with
  | nil => exact fun acc => ⟨acc, rfl⟩
  | cons p rest ih =>
    intro acc
    have hp : 2 ≤ (pySplit p "=").length := h p (by simp)
    cases hv : (pySplit p "=")[1]? with
    | none =>
      rw [List.getElem?_eq_none_iff] at hv
      omega
    | some v =>
      obtain ⟨d, hd⟩ := ih (fun s hs => h s (by simp [hs])) (dictInsert acc (pyFirst (pySplit p "=")) v)
      exact ⟨d, by simp only [buildParams, hv]; exact hd⟩

/-- The final subscript block raises only `KeyError`, never `IndexError`. -/
theorem lookupParams_no_indexError (params : List (String × String)) :
    lookupParams params ≠ .error .indexError := by
  unfold lookupParams
  split <;> (try split) <;> (try split) <;> simp

/-- A well-formed connection string never makes `parseConn` raise
`IndexError`; the only remaining failure mode is a `KeyError` from a missing
`AccountName` or `EndpointSuffix` entry. -/
theorem parseConn_no_indexError (cs : String) (h : connWellFormed cs) :
    parseConn cs ≠ .error .indexError := by
  obtain ⟨h1, h2⟩ := h
  obtain ⟨d, hd⟩ := buildParams_ok (pySplit cs ";") h2 []
  unfold parseConn
  cases hk : (pySplit cs "AccountKey=")[1]? with
  | none =>
    rw [List.getElem?_eq_none_iff] at hk
    omega
  | some afterKey =>
    simp only [hd]
    exact lookupParams_no_indexError _

/-- With a well-formed connection string, `get_read_sas_token` never raises
`IndexError` (its `KeyError`s are caught by the middleware's handlers). -/
theorem get_read_no_indexError (cs cn : String) (sign : SignFn) (f : String)
    (h : connWellFormed cs) :
    get_read_sas_token cs cn sign f ≠ .error .indexError := by
  cases hp : parseConn cs with
  | error e =>
    cases e with
    | keyError => simp [get_read_sas_token, hp]
    | indexError => exact absurd hp (parseConn_no_indexError cs h)
  | ok p =>
    simp only [get_read_sas_token, hp]
    split <;> simp

/-- The asset loop of `BlobAccessMiddleware` cannot surface an `IndexError`
when the connection string is well-formed. -/
theorem blobAssets_no_indexError (cs cn : String) (sign : SignFn)
    (h : connWellFormed cs) (l : List (String × String)) :
    (blobAssets cs cn sign l).2 ≠ some .indexError := by
  induction l with
  | nil => simp [blobAssets]
  | cons a rest ih =>
    obtain ⟨n, href⟩ := a
    cases hg : get_read_sas_token cs cn sign href with
    | error e =>
      cases e with
      | keyError => simp [blobAssets, hg]
      | indexError => exact absurd hg (get_read_no_indexError cs cn sign href h)
    | ok r => simpa [blobAssets, hg] using ih

/-- The item loop of `BlobAccessMiddleware` cannot surface an `IndexError`
when the connection string is well-formed. -/
theorem blobItems_no_indexError (cs cn : String) (sign : SignFn)
    (h : connWellFormed cs) (l : List Item) :
    (blobItems cs cn sign l).2 ≠ some .indexError := by
  induction l with
  | nil => simp [blobItems]
  | cons it rest ih =>
    cases ha : it.assets with
    | none => simp [blobItems, ha]
    | some av =>
      cases he : (blobAssets cs cn sign av).2 with
      | none => simpa [blobItems, ha, he] using ih
      | some e =>
        cases e with
        | keyError => simp [blobItems, ha, he]
        | indexError => exact absurd he (blobAssets_no_indexError cs cn sign h av)

/-- The second `try` of `BlobAccessMiddleware` always succeeds when the
connection string is well-formed. -/
theorem blobSecondTry_ok (cs cn : String) (sign : SignFn) (doc : StacDoc)
    (h : connWellFormed cs) :
    ∃ d, blobSecondTry cs cn sign doc = .ok d := by
  cases ha : doc.assets with
  | none => exact ⟨doc, by simp [blobSecondTry, ha]⟩
  | some av =>
    cases he : (blobAssets cs cn sign av).2 with
    | none =>
      exact ⟨{ doc with assets := some (blobAssets cs cn sign av).1 },
        by simp [blobSecondTry, ha, he]⟩
    | some e =>
      cases e with
      | keyError =>
        exact ⟨{ doc with assets := some (blobAssets cs cn sign av).1 },
          by simp [blobSecondTry, ha, he]⟩
      | indexError => exact absurd he (blobAssets_no_indexError cs cn sign h av)

/-- The whole rewrite of `BlobAccessMiddleware` always succeeds when the
connection string is well-formed. -/
theorem blobRewrite_ok (cs cn : String) (sign : SignFn) (doc : StacDoc)
    (h : connWellFormed cs) :
    ∃ d, blobRewrite cs cn sign doc = .ok d := by
  cases hf : doc.features with
  | none =>
    obtain ⟨d, hd⟩ := blobSecondTry_ok cs cn sign doc h
    exact ⟨d, by simp [blobRewrite, hf, hd]⟩
  | some feats =>
    cases he : (blobItems cs cn sign feats).2 with
    | none =>
      exact ⟨{ doc with features := some (blobItems cs cn sign feats).1 },
        by simp [blobRewrite, hf, he]⟩
    | some e =>
      cases e with
      | keyError =>
        obtain ⟨d, hd⟩ := blobSecondTry_ok cs cn sign
          { features := some (blobItems cs cn sign feats).1,
            assets := doc.assets, links := doc.links } h
        refine ⟨d, ?_⟩
        simp only [blobRewrite, hf, he]
        exact hd
      | indexError => exact absurd he (blobItems_no_indexError cs cn sign h feats)

/-- C2 counterexample: with the default (empty) connection string —
`AZURE_STORAGE_CONNECTION_STRING` unset — `get_read_sas_token` raises
`IndexError` at `connection_string.split("AccountKey=")[1]`; the
`except KeyError` handlers of `BlobAccessMiddleware.dispatch` do not catch
it, so the error born in token issuance escapes to the HTTP layer as a
failed response instead of the original 200 body. -/
theorem blob_indexError_escapes_counterexample :
    blobRewrite "" "stac-items" signX
        ⟨some [⟨some [("b", "https://acct.blob.core.windows.net/stac-items/a.tif")], none⟩],
         none, none⟩
      = .error .indexError ∧
    blobDispatch "" "stac-items" signX "/collections/c/items"
        ⟨200, some "application/json",
         ⟨some [⟨some [("b", "https://acct.blob.core.windows.net/stac-items/a.tif")], none⟩],
          none, none⟩⟩
      = .error .indexError := by
  exact ⟨rfl, rfl⟩

/-- C2 amended: in `MicrosoftPlanetaryComputerMiddleware` every rewrite
error is swallowed, but `BlobAccessMiddleware` catches only `KeyError`: an
`IndexError` raised while parsing a malformed connection string inside
`get_read_sas_token` (for example the default empty string) propagates as a
failed response.  Whenever the connection string is well-formed — it contains
`AccountKey=` and every `;`-segment contains `=` — the dispatch does return a
response carrying the original status code and `Content-Type`, with
best-effort href rewriting applied. -/
theorem blob_wellformed_conn_no_failure (cs cn : String) (sign : SignFn)
    (path : String) (resp : Resp) (hcs : connWellFormed cs) :
    (∃ r, blobDispatch cs cn sign path resp = .ok r) ∧
    ∀ r, blobDispatch cs cn sign path resp = .ok r →
      r.status = resp.status ∧ r.contentType = resp.contentType := by
  unfold blobDispatch
  by_cases h1 : (300 ≤ resp.status && resp.status < 400) = true
  · simp only [h1, if_true]
    exact ⟨⟨resp, rfl⟩, fun r hr => by cases hr; exact ⟨rfl, rfl⟩⟩
  · simp only [h1, if_false, Bool.not_eq_true] at *
    by_cases h2 : pathIntercepted path = true
    · simp only [h1, h2, Bool.not_true, if_false]
      obtain ⟨d, hd⟩ := blobRewrite_ok cs cn sign resp.body hcs
      rw [hd]
      exact ⟨⟨_, rfl⟩, fun r hr => by cases hr; exact ⟨rfl, rfl⟩⟩
    · simp only [Bool.not_eq_true] at h2
      simp only [h1, h2, Bool.not_false, if_true]
      exact ⟨⟨resp, rfl⟩, fun r hr => by cases hr; exact ⟨rfl, rfl⟩⟩

/-- Witness for `blob_wellformed_conn_no_failure` on the well-formed Scenario
A connection string and a concrete intercepted response. -/
theorem blob_wellformed_conn_no_failure_witness :
    (∃ r, blobDispatch exConn "stac-items" signX "/collections/c/items"
        ⟨200, some "application/json", exDoc⟩ = .ok r) ∧
    ∀ r, blobDispatch exConn "stac-items" signX "/collections/c/items"
        ⟨200, some "application/json", exDoc⟩ = .ok r →
      r.status = 200 ∧ r.contentType = some "application/json" :=
  blob_wellformed_conn_no_failure exConn "stac-items" signX "/collections/c/items"
    ⟨200, some "application/json", exDoc⟩ ⟨by decide, by decide⟩

end StacApi
